import Mathlib

/-!
Shallow embedding of the dynamic error container in `src/error.rs`
(the `Error` type of the anyhow crate, cfg(backtrace) configuration).

A value of `dyn StdError + Send + Sync + 'static` is modelled by `ErrVal`:
its concrete type is recorded as a `TypeId` token, and its observable
behaviour is its Display output, its Debug output, its `source()` and its
`backtrace()`.  The trait-object vtable of the Rust code is not modelled
separately: reconstructing the polymorphic view from the stored vtable and
the value address (ErrorImpl::error / error_mut) is modelled by reading the
stored `ErrVal` itself, which is exactly the behaviour that view provides.
-/

/-- The `std::backtrace::BacktraceStatus` (non_exhaustive; these are its
variants as of the code's era). -/
inductive BacktraceStatus : Type where
  | unsupported
  | disabled
  | captured
  deriving DecidableEq, Repr

/-- The `std::backtrace::Backtrace`: its status and its Display rendering
(the rendering only matters when the status is `captured`). -/
structure Backtrace where
  status : BacktraceStatus
  rendered : String
  deriving DecidableEq, Repr

/-- The `std::any::TypeId`: an opaque per-type token compared only for
equality.  Base types get a `Nat` code; the generic wrapper types
`MessageError<M>` and `ContextError<Error, C>` of this crate get tokens
distinct from every base token and determined by the parameter type,
exactly as Rust type identity works. -/
inductive TypeId : Type where
  | base (n : Nat)
  | messageError (m : TypeId)
  | contextError (c : TypeId)
  deriving DecidableEq, Repr

/-- A concrete value satisfying the construction bounds of §4.1
(`StdError + Send + Sync + 'static`), after erasure: its concrete type's
token, its Display output, its Debug output, its `source()` and its
`backtrace()`.  `ErrVal` is inductive, so every source chain is finite and
acyclic: this is the trust assumption of §4.4 / §9, baked into the model. -/
inductive ErrVal : Type where
  | mk (tyId : TypeId) (displayOut : String) (debugOut : String)
      (sourceOut : Option ErrVal) (backtraceOut : Option Backtrace)

/-- The `TypeId` of the value's concrete type (`TypeId::of::<E>()`). -/
def ErrVal.tyId : ErrVal → TypeId
  | .mk t _ _ _ _ => t

/-- The value's Display output. -/
def ErrVal.display : ErrVal → String
  | .mk _ d _ _ _ => d

/-- The value's Debug output. -/
def ErrVal.debug : ErrVal → String
  | .mk _ _ d _ _ => d

/-- The value's `StdError::source()`. -/
def ErrVal.source : ErrVal → Option ErrVal
  | .mk _ _ _ s _ => s

/-- The value's `StdError::backtrace()`. -/
def ErrVal.backtrace : ErrVal → Option Backtrace
  | .mk _ _ _ _ b => b

/-- The `ErrorImpl` (src/error.rs lines 368-374), the single heap allocation
behind an `Error`, with the payload already erased: field order vtable,
type_id, backtrace, error.  The vtable field is represented by the stored
value itself (see the header comment). -/
structure ErrorImpl where
  type_id : TypeId
  backtrace : Option Backtrace
  error : ErrVal

/-- The `Error` container (src/error.rs lines 22-24): one owning handle to
an `ErrorImpl` allocation. -/
structure Error where
  inner : ErrorImpl

/-- The `Error::construct` (lines 59-75): box the value together with the
given type token and optional captured trace. -/
def Error.construct (error : ErrVal) (type_id : TypeId)
    (backtrace : Option Backtrace) : Error :=
  ⟨⟨type_id, backtrace, error⟩⟩

/-- The `Error::new` (lines 34-50).  `capture` is the backtrace that
`Backtrace::capture()` would return at this call site: it is stored only
when the value's own `backtrace()` reports none. -/
def Error.new (capture : Backtrace) (error : ErrVal) : Error :=
  let backtrace : Option Backtrace :=
    match error.backtrace with
    | some _ => none
    | none => some capture
  Error.construct error error.tyId backtrace

/-- A plain displayable+debuggable message value `M` (`Display + Debug +
Send + Sync + 'static`), with its concrete type's token. -/
structure MessageVal where
  tyId : TypeId
  display : String
  debug : String
  deriving DecidableEq, Repr

/-- The `MessageError<M>` (lines 383-404): a `repr(transparent)` wrapper whose
Display and Debug forward to `M`'s and whose `source()` is the default
`None`; its own concrete type is `MessageError<M>`, not `M`. -/
def MessageError (message : MessageVal) : ErrVal :=
  .mk (.messageError message.tyId) message.display message.debug none none

/-- The `Error::new_adhoc` (lines 52-57): construct from `MessageError(message)`
but record `TypeId::of::<M>()`, the token of the message type itself. -/
def Error.new_adhoc (message : MessageVal) (backtrace : Option Backtrace) :
    Error :=
  Error.construct (MessageError message) message.tyId backtrace

/-- Modelled from the spec: `ContextError` lives in `src/context.rs`, which
is not among the given sources.  §3 "ContextFrame": a concrete error value
composed of the previous container (owned) and a display message (owned).
§4.1 `context`: its Display renders the message, and its cause-lookup
(`source()`) yields the container's own top-level view.  As a concrete type
it is `ContextError<Error, C>`, so its token is determined by `C`'s token
and differs from every base token.  Its Debug output and its `backtrace()`
are not used by any claim; Debug is modelled as forwarding the message's
Debug, and `backtrace()` as the default `None`. -/
def ContextError (error : Error) (context : MessageVal) : ErrVal :=
  .mk (.contextError context.tyId) context.display context.debug
    (some error.inner.error) none

/-- The `Error::context` (lines 130-138): wrap self and the message into a
`ContextError` and run it through `Error::from`, i.e. `Error::new`
(lines 292-299).  `capture` is the backtrace that `Backtrace::capture()`
would return inside that `Error::new` call. -/
def Error.context (e : Error) (context : MessageVal) (capture : Backtrace) :
    Error :=
  Error.new capture (ContextError e context)

/-- The `Error::backtrace` (lines 151-161):
`self.inner.backtrace.as_ref().or_else(|| self.inner.error().backtrace())`;
the Rust code then unwraps (panics when both are absent), so the model
keeps the `Option`. -/
def Error.backtrace (e : Error) : Option Backtrace :=
  match e.inner.backtrace with
  | some b => some b
  | none => e.inner.error.backtrace

/-- The `Display for Error` (lines 352-356): forwards to the stored value. -/
def Error.display (e : Error) : String :=
  e.inner.error.display

/-- The `Chain` (lines 447-449): the iterator state, a borrowed view of the
next value to yield, if any. -/
structure Chain where
  next : Option ErrVal

/-- The `Error::chain` (lines 184-188): start at the stored value's view. -/
def Error.chain (e : Error) : Chain :=
  ⟨some e.inner.error⟩

/-- The `Iterator::next for Chain` (lines 451-459): take the pending value,
remember its `source()`, yield it. -/
def Chain.step : Chain → Option (ErrVal × Chain)
  | ⟨none⟩ => none
  | ⟨some e⟩ => some (e, ⟨e.source⟩)

/-- The finite list of values an `ErrVal`-rooted chain yields: the value
itself, then its source's chain.  Finite because `ErrVal` is inductive. -/
def ErrVal.chainList : ErrVal → List ErrVal
  | .mk t d dbg src bt =>
    .mk t d dbg src bt ::
      (match src with
       | none => []
       | some s => s.chainList)

/-- All items the iterator starting at `c` yields, in order. -/
def Chain.toList : Chain → List ErrVal
  | ⟨none⟩ => []
  | ⟨some e⟩ => e.chainList

/-- The list of chain items of a container, `chain()` drained in order. -/
def Error.chainItems (e : Error) : List ErrVal :=
  (Error.chain e).toList

/-- The `Error::root_cause` (lines 195-202): take the chain, unwrap its first
item, then loop over the rest keeping the last one seen.  The `[]` branch
is unreachable (`chain()` always starts with one pending item) and models
the `.unwrap()`. -/
def Error.root_cause (e : Error) : ErrVal :=
  match (Error.chain e).toList with
  | [] => e.inner.error
  | first :: rest => rest.foldl (fun _ cause => cause) first

/-- The `Error::is::<E>` (lines 205-210): compare `TypeId::of::<E>()` (the
`tid` argument) with the stored token. -/
def Error.is (e : Error) (tid : TypeId) : Bool :=
  decide (tid = e.inner.type_id)

/-- The `Error::downcast_ref::<E>` (lines 265-274): when the token matches,
reinterpret the stored view's address as `&E` — the stored value seen at
its own concrete type — otherwise `None`. -/
def Error.downcast_ref (e : Error) (tid : TypeId) : Option ErrVal :=
  if Error.is e tid then some e.inner.error else none

/-- The `Error::downcast_mut::<E>` (lines 277-286): same check, mutable
borrow. -/
def Error.downcast_mut (e : Error) (tid : TypeId) : Option ErrVal :=
  if Error.is e tid then some e.inner.error else none

/-- The `Error::downcast::<E>` (lines 213-227): on a `downcast_ref` hit, move
the value out and return it as `Ok`; otherwise return `Err(self)`, the
container itself, untouched. -/
def Error.downcast (e : Error) (tid : TypeId) : Except Error ErrVal :=
  match Error.downcast_ref e tid with
  | some v => .ok v
  | none => .error e

/-- Reading a `MessageError<M>` at type `M`: `MessageError` is
`repr(transparent)` over `M`, so the reinterpreting pointer cast of
`downcast_ref::<M>` recovers exactly the wrapped message value — its type
is the parameter of the wrapper's token, and its Display and Debug are the
ones the wrapper forwarded. -/
def ErrVal.asMessage (v : ErrVal) : MessageVal :=
  ⟨(match v.tyId with
    | .messageError t => t
    | t => t), v.display, v.debug⟩

/-- One observable step of teardown. -/
inductive Event : Type where
  | dropValue (tyId : TypeId)
  | dropBacktrace
  | freeAlloc
  deriving DecidableEq, Repr

/-- Is this event a run of some wrapped value's destruction logic? -/
def Event.isDropValue : Event → Bool
  | .dropValue _ => true
  | _ => false

/-- The drop glue of `Option<Backtrace>` inside `ErrorImpl`. -/
def backtraceDropEvents (b : Option Backtrace) : List Event :=
  match b with
  | some _ => [Event.dropBacktrace]
  | none => []

/-- The `Drop for Error` (lines 361-365) followed by the automatic drop of the
`inner: Box<ErrorImpl<()>>` field: first `drop_in_place` of the stored
value through the reconstructed view (its own destruction logic runs),
then the box drops the remaining `ErrorImpl<()>` fields (the vtable
pointer and `TypeId` need no drop, the `Option<Backtrace>` is dropped, the
payload is seen as `()` so it is not dropped again) and frees the
allocation. -/
def Error.dropEvents (e : Error) : List Event :=
  Event.dropValue e.inner.error.tyId ::
    (backtraceDropEvents e.inner.backtrace ++ [Event.freeAlloc])

/-- The events of `Error::downcast` itself (lines 217-223).  On a match:
`ptr::read(error)` moves the value out without running anything,
`drop(ptr::read(&self.inner))` drops the box — the `Option<Backtrace>` is
dropped and the allocation is freed, the payload is typed `()` so its
destruction logic does not run — and `mem::forget(self)` suppresses
`Drop for Error`.  On a mismatch nothing at all happens. -/
def Error.downcastEvents (e : Error) (tid : TypeId) : List Event :=
  if Error.is e tid then
    backtraceDropEvents e.inner.backtrace ++ [Event.freeAlloc]
  else []

/-- The events of the caller eventually dropping a value extracted by a
successful owning downcast: its destruction logic runs, once, there. -/
def ErrVal.dropValueEvents (v : ErrVal) : List Event :=
  [Event.dropValue v.tyId]

/-- The `for (n, error) in chain` loop of `Debug for Error` (lines
326-328): each remaining cause on its own line, indented, prefixed with
its index. -/
def causedByRest : Nat → List ErrVal → String
  | _, [] => ""
  | n, c :: cs =>
    "    " ++ toString n ++ ": " ++ c.display ++ "\n" ++ causedByRest (n + 1) cs

/-- The `Debug for Error` (lines 315-349), cfg(backtrace) build.  The
top-level message, then the "Caused by:" section over `chain().skip(1)`
(the first cause gets its `0: ` index only when another one is peeked),
then the backtrace section: `self.backtrace()` unwraps — when both stored
and reported backtraces are absent the code panics, modelled as `none` —
and its status selects the trace itself, the disabled note, or nothing. -/
def Error.debugFmt (e : Error) : Option String :=
  match Error.backtrace e with
  | none => none
  | some b =>
    let head := e.inner.error.display ++ "\n"
    let causedSection :=
      match e.inner.error.chainList.drop 1 with
      | [] => ""
      | c :: cs =>
        "\nCaused by:\n    "
          ++ (if cs.isEmpty then ("") else ("0: "))
          ++ c.display ++ "\n"
          ++ causedByRest 1 cs
    let backtraceSection :=
      match b.status with
      | .captured => "\n" ++ b.rendered ++ "\n"
      | .disabled =>
        "\nBacktrace disabled; run with RUST_LIB_BACKTRACE=1 environment variable to display a backtrace\n"
      | .unsupported => ""
    some (head ++ causedSection ++ backtraceSection)

/-- The chain property stated by §4.4: each element's `source()` is the
next element, and the last element's `source()` is `None`. -/
def followsSource : List ErrVal → Prop
  | [] => True
  | [v] => v.source = none
  | v :: w :: rest => v.source = some w ∧ followsSource (w :: rest)

/-- The chain items strictly below a value: its source's chain, if any. -/
def ErrVal.chainTail (v : ErrVal) : List ErrVal :=
  match v.source with
  | none => []
  | some s => s.chainList

/-- A sample concrete error value with no cause. -/
def sampleRoot : ErrVal :=
  .mk (.base 0) "root failure" "RootFailure" none none

/-- A sample result of `Backtrace::capture()`. -/
def sampleBt : Backtrace :=
  ⟨.captured, "stack trace"⟩

/-- Cause A of the §8 scenario: the root, no further cause. -/
def sampleA : ErrVal := .mk (.base 10) "A" "DebugA" none none

/-- Cause B of the §8 scenario: wraps A. -/
def sampleB : ErrVal := .mk (.base 11) "B" "DebugB" (some sampleA) none

/-- Cause C of the §8 scenario: wraps B. -/
def sampleC : ErrVal := .mk (.base 12) "C" "DebugC" (some sampleB) none

/-- A container whose stored backtrace has status `unsupported` and whose
value has no cause: exercises the `_ => {}` arm of the Debug impl. -/
def unsupportedError : Error :=
  Error.construct (.mk (.base 3) "boom" "Boom" none none) (.base 3)
    (some ⟨.unsupported, ""⟩)

theorem chainList_eq (v : ErrVal) : v.chainList = v :: v.chainTail := by
  cases v with
  | mk t d dbg src bt => cases src <;> rfl

theorem chainTail_of_source_none (v : ErrVal) (h : v.source = none) :
    v.chainTail = [] := by
  simp [ErrVal.chainTail, h]

theorem chainTail_of_source_some (v s : ErrVal) (h : v.source = some s) :
    v.chainTail = s.chainList := by
  simp [ErrVal.chainTail, h]

theorem chainItems_eq (e : Error) :
    Error.chainItems e = e.inner.error :: e.inner.error.chainTail := by
  simpa [Error.chainItems, Error.chain, Chain.toList] using
    chainList_eq e.inner.error

theorem followsSource_chainList : (v : ErrVal) → followsSource v.chainList
  | .mk t d dbg none bt => by
      simp [ErrVal.chainList, followsSource, ErrVal.source]
  | .mk t d dbg (some s) bt => by
      have ih := followsSource_chainList s
      have hs := chainList_eq s
      rw [ErrVal.chainList, hs]
      exact ⟨rfl, hs ▸ ih⟩

theorem getLast?_cons_foldl (a : ErrVal) (l : List ErrVal) :
    (a :: l).getLast? = some (l.foldl (fun _ cause => cause) a) := by
  induction l generalizing a with
  | nil => rfl
  | cons b l ih => rw [List.getLast?_cons_cons, List.foldl_cons]; exact ih b

theorem causedByRest_eq_foldr (n : Nat) (cs : List ErrVal) :
    causedByRest n cs =
      ((cs.enumFrom n).map
        (fun p => "    " ++ toString p.1 ++ ": " ++ p.2.display ++ "\n")).foldr
        (fun s t => s ++ t) "" := by
  induction cs generalizing n with
  | nil => rfl
  | cons c cs ih =>
      simp only [causedByRest, List.enumFrom, List.map, List.foldr]
      rw [ih]

/-- C1: for every concrete type T satisfying the construction bounds of
§4.1 and every value v of that type (any `ErrVal`, whose token is
`TypeId::of::<T>()`), `new(v)` followed by `downcast::<T>()` succeeds,
returning the Ok branch with a value observably equal to v. -/
theorem c1_new_downcast_roundtrip (v : ErrVal) (capture : Backtrace) :
    Error.downcast (Error.new capture v) v.tyId = .ok v := by
  have h : Error.is (Error.new capture v) v.tyId = true := by
    simp [Error.is, Error.new, Error.construct]
  unfold Error.downcast Error.downcast_ref
  rw [h]
  rfl

/-- C2: `downcast::<W>()` with W different from the stored type X returns
the failure branch carrying the original container, unchanged: same type
identity, same Display text, same chain contents; and the mismatch path
performs no side effects (its teardown-event trace is empty). -/
theorem c2_downcast_mismatch (e : Error) (w : TypeId)
    (h : w ≠ e.inner.type_id) :
    ∃ eBack : Error, Error.downcast e w = .error eBack ∧
      eBack = e ∧
      eBack.inner.type_id = e.inner.type_id ∧
      Error.display eBack = Error.display e ∧
      Error.chainItems eBack = Error.chainItems e ∧
      Error.downcastEvents e w = [] := by
  have his : Error.is e w = false := by
    simp [Error.is, h]
  refine ⟨e, ?_, rfl, rfl, rfl, rfl, ?_⟩
  · unfold Error.downcast Error.downcast_ref
    rw [his]
    rfl
  · unfold Error.downcastEvents
    rw [his]
    rfl

/-- Witness for C2 at a concrete container of stored type `base 0` and
requested type `base 1`. -/
theorem c2_downcast_mismatch_witness :
    Error.downcast (Error.new sampleBt sampleRoot) (.base 1) =
      .error (Error.new sampleBt sampleRoot) := by
  obtain ⟨eBack, h1, h2, -⟩ :=
    c2_downcast_mismatch (Error.new sampleBt sampleRoot) (.base 1) (by decide)
  rw [h1, h2]

/-- C3: `chain()` yields a finite sequence beginning with the top-level
wrapped value, each element's `source()` is the next one and the last has
none; for causes A → B → C the container built from C yields exactly
[C, B, A]; `root_cause()` is the last element of that sequence, and for a
container with no further causes it is the top-level value itself. -/
theorem c3_chain_root_cause :
    (∀ e : Error, (Error.chainItems e).head? = some e.inner.error) ∧
    (∀ e : Error, followsSource (Error.chainItems e)) ∧
    (∀ capture : Backtrace,
      Error.chainItems (Error.new capture sampleC) = [sampleC, sampleB, sampleA]) ∧
    (∀ capture : Backtrace,
      Error.root_cause (Error.new capture sampleC) = sampleA) ∧
    (∀ e : Error, (Error.chainItems e).getLast? = some (Error.root_cause e)) ∧
    (∀ e : Error, e.inner.error.source = none →
      Error.root_cause e = e.inner.error) := by
  refine ⟨?_, ?_, fun _ => rfl, fun _ => rfl, ?_, ?_⟩
  · intro e
    rw [chainItems_eq]
    rfl
  · intro e
    have h := followsSource_chainList e.inner.error
    simpa [Error.chainItems, Error.chain, Chain.toList] using h
  · intro e
    have hitems : Error.chainItems e =
        e.inner.error :: e.inner.error.chainTail := chainItems_eq e
    rw [hitems, getLast?_cons_foldl]
    have hroot : Error.root_cause e =
        (e.inner.error.chainTail).foldl (fun _ cause => cause)
          e.inner.error := by
      unfold Error.root_cause
      have : (Error.chain e).toList =
          e.inner.error :: e.inner.error.chainTail := chainItems_eq e
      rw [this]
    rw [hroot]
  · intro e h
    have htail : e.inner.error.chainTail = [] :=
      chainTail_of_source_none e.inner.error h
    unfold Error.root_cause
    have : (Error.chain e).toList =
        e.inner.error :: e.inner.error.chainTail := chainItems_eq e
    rw [this, htail]
    rfl

/-- Witness for C3 at a concrete container: root_cause of a chain C → B
→ A is A, and of a causeless container is its own value. -/
theorem c3_chain_root_cause_witness :
    Error.root_cause (Error.new sampleBt sampleC) = sampleA ∧
    Error.root_cause (Error.new sampleBt sampleRoot) = sampleRoot := by
  refine ⟨c3_chain_root_cause.2.2.2.1 sampleBt, ?_⟩
  exact c3_chain_root_cause.2.2.2.2.2 (Error.new sampleBt sampleRoot) rfl

/-- C4: `is::<T>()` is true iff the stored token equals T's token;
`downcast_ref::<T>()` and `downcast_mut::<T>()` yield a present reference
(the stored value viewed at its concrete type) exactly when `is::<T>()`
holds, and the absent result otherwise, with no side effects on mismatch
(the mismatch teardown-event trace is empty). -/
theorem c4_is_downcast_ref_mut (e : Error) (t : TypeId) :
    (Error.is e t = true ↔ t = e.inner.type_id) ∧
    ((Error.downcast_ref e t).isSome = Error.is e t) ∧
    ((Error.downcast_mut e t).isSome = Error.is e t) ∧
    (Error.is e t = true →
      Error.downcast_ref e t = some e.inner.error ∧
      Error.downcast_mut e t = some e.inner.error) ∧
    (Error.is e t = false →
      Error.downcast_ref e t = none ∧
      Error.downcast_mut e t = none ∧
      Error.downcastEvents e t = []) := by
  refine ⟨?_, ?_, ?_, ?_, ?_⟩
  · simp [Error.is]
  · cases h : Error.is e t <;>
      simp [Error.downcast_ref, h]
  · cases h : Error.is e t <;>
      simp [Error.downcast_mut, h]
  · intro h
    constructor <;> simp [Error.downcast_ref, Error.downcast_mut, h]
  · intro h
    refine ⟨?_, ?_, ?_⟩ <;>
      simp [Error.downcast_ref, Error.downcast_mut, Error.downcastEvents, h]

/-- Witness for C4 at a concrete container: a matching request yields the
stored value, a mismatched one yields the absent result. -/
theorem c4_is_downcast_ref_mut_witness :
    Error.downcast_ref (Error.new sampleBt sampleRoot) (.base 0) =
      some sampleRoot ∧
    Error.downcast_ref (Error.new sampleBt sampleRoot) (.base 1) = none := by
  constructor
  · exact ((c4_is_downcast_ref_mut (Error.new sampleBt sampleRoot)
      (.base 0)).2.2.2.1 (by decide)).1
  · exact ((c4_is_downcast_ref_mut (Error.new sampleBt sampleRoot)
      (.base 1)).2.2.2.2 (by decide)).1

/-- C5: `context(container_wrapping_E, msg)` produces a container whose
Display output is exactly the message, whose chain's first element renders
the message, whose chain's second element is E (the wrapped value), and
which keeps the entire pre-existing cause chain: the new chain is the
context frame consed onto the old chain. -/
theorem c5_context (e : Error) (c : MessageVal) (capture : Backtrace) :
    Error.display (Error.context e c capture) = c.display ∧
    ((Error.chainItems (Error.context e c capture)).head?).map ErrVal.display =
      some c.display ∧
    (Error.chainItems (Error.context e c capture))[1]? =
      some e.inner.error ∧
    Error.chainItems (Error.context e c capture) =
      ContextError e c :: Error.chainItems e := by
  have hch : Error.chainItems (Error.context e c capture) =
      ContextError e c :: Error.chainItems e := rfl
  refine ⟨rfl, ?_, ?_, hch⟩
  · rw [hch]
    rfl
  · rw [hch, chainItems_eq]
    simp

/-- C6: `new_adhoc(message)` builds a container whose chain has exactly
one element, that element's Display output is exactly the message's own
Display output, and it reports no deeper cause. -/
theorem c6_new_adhoc_chain (m : MessageVal) (backtrace : Option Backtrace) :
    Error.chainItems (Error.new_adhoc m backtrace) = [MessageError m] ∧
    (MessageError m).display = m.display ∧
    (MessageError m).source = none := by
  exact ⟨rfl, rfl, rfl⟩

/-- C7 counterexample: the claim says that when no trace was captured the
Debug rendering prints a one-line note that trace capture was disabled.
On a container whose backtrace has status `unsupported` (the `_ => {}`
arm of the Debug impl) the rendering is exactly "boom\n": no trace was
captured, yet the whole output is shorter than the disabled note, so the
note cannot have been printed. -/
theorem c7_counterexample :
    Error.backtrace unsupportedError =
      some ⟨BacktraceStatus.unsupported, ""⟩ ∧
    Error.debugFmt unsupportedError = some ("boom\n") ∧
    ("boom\n").length <
      ("\nBacktrace disabled; run with RUST_LIB_BACKTRACE=1 environment variable to display a backtrace\n").length := by
  refine ⟨rfl, rfl, by decide⟩

/-- C7 (amended): the Debug rendering prints the top-level message on its
own line; if further causes exist it prints a "Caused by:" section; with
exactly one further cause that cause is printed unindexed; with several,
each is printed indexed in chain order starting at 0; finally, if the
trace has status captured it is printed, if it has status disabled a
one-line note is printed, and otherwise (e.g. status unsupported) nothing
is printed.  (The original claim said the disabled note is printed in
every non-captured case.) -/
theorem c7_debug_contract (e : Error) (b : Backtrace)
    (hb : Error.backtrace e = some b) :
    Error.debugFmt e = some (
      Error.display e ++ "\n"
      ++ (match Error.chainItems e with
          | [] => ""
          | [_] => ""
          | [_, c] => "\nCaused by:\n    " ++ c.display ++ "\n"
          | _ :: c :: cs =>
            "\nCaused by:\n    " ++ "0: " ++ c.display ++ "\n"
              ++ ((cs.enumFrom 1).map
                  (fun p => "    " ++ toString p.1 ++ ": " ++ p.2.display ++ "\n")).foldr
                  (fun s t => s ++ t) "")
      ++ (match b.status with
          | .captured => "\n" ++ b.rendered ++ "\n"
          | .disabled =>
            "\nBacktrace disabled; run with RUST_LIB_BACKTRACE=1 environment variable to display a backtrace\n"
          | .unsupported => "")) := by
  have hfmt : Error.debugFmt e = some (
      e.inner.error.display ++ "\n"
      ++ (match e.inner.error.chainList.drop 1 with
          | [] => ""
          | c :: cs =>
            "\nCaused by:\n    " ++ (if cs.isEmpty then ("") else ("0: "))
              ++ c.display ++ "\n" ++ causedByRest 1 cs)
      ++ (match b.status with
          | .captured => "\n" ++ b.rendered ++ "\n"
          | .disabled =>
            "\nBacktrace disabled; run with RUST_LIB_BACKTRACE=1 environment variable to display a backtrace\n"
          | .unsupported => "")) := by
    unfold Error.debugFmt
    rw [hb]
  rw [hfmt, chainItems_eq, chainList_eq]
  generalize e.inner.error.chainTail = tail
  rcases tail with _ | ⟨c, _ | ⟨c2, cs⟩⟩
  · rfl
  · simp only [List.drop_succ_cons, List.drop_zero, List.isEmpty_nil,
      if_true, causedByRest, String.append_empty]
    rfl
  · simp only [List.drop_succ_cons, List.drop_zero, List.isEmpty_cons,
      Bool.false_eq_true, if_false, causedByRest_eq_foldr]
    rfl

/-- Witness for C7 at a concrete container with two further causes and a
captured trace. -/
theorem c7_debug_contract_witness :
    Error.debugFmt (Error.new sampleBt sampleC) =
      some ("C\n\nCaused by:\n    0: B\n    1: A\n\nstack trace\n") := by
  have h := c7_debug_contract (Error.new sampleBt sampleC) sampleBt rfl
  exact h.trans (by rfl)

/-- C9: the wrapped value's destruction logic runs exactly once, and the
allocation is freed exactly once, on either teardown path: ordinary scope
exit (Drop for Error runs the value's destructor through the
reconstructed view, then the box is freed), or a successful owning
downcast (the value moves out without running its destructor, the shell
is freed once, Drop for Error is suppressed, and the caller's eventual
drop of the extracted value is its one destructor run).  On a mismatched
downcast nothing at all happens. -/
theorem c9_drop_exactly_once (e : Error) (tid : TypeId) :
    ((Error.dropEvents e).countP Event.isDropValue = 1 ∧
      (Error.dropEvents e).count Event.freeAlloc = 1) ∧
    (Error.is e tid = true →
      ∀ v : ErrVal, Error.downcast e tid = .ok v →
        (Error.downcastEvents e tid ++ v.dropValueEvents).countP
            Event.isDropValue = 1 ∧
        (Error.downcastEvents e tid ++ v.dropValueEvents).count
            Event.freeAlloc = 1) ∧
    (Error.is e tid = false → Error.downcastEvents e tid = []) := by
  refine ⟨⟨?_, ?_⟩, ?_, ?_⟩
  · cases h : e.inner.backtrace <;>
      simp [Error.dropEvents, backtraceDropEvents, h, Event.isDropValue]
  · cases h : e.inner.backtrace <;>
      simp [Error.dropEvents, backtraceDropEvents, h, List.count_cons,
        List.count_append]
  · intro his v hv
    have hev : Error.downcastEvents e tid =
        backtraceDropEvents e.inner.backtrace ++ [Event.freeAlloc] := by
      unfold Error.downcastEvents
      rw [his]
      rfl
    constructor
    · cases h : e.inner.backtrace <;>
        simp [hev, backtraceDropEvents, h, ErrVal.dropValueEvents,
          Event.isDropValue]
    · cases h : e.inner.backtrace <;>
        simp [hev, backtraceDropEvents, h, ErrVal.dropValueEvents,
          List.count_cons, List.count_append]
  · intro his
    unfold Error.downcastEvents
    rw [his]
    rfl

/-- Witness for C9 at a concrete container and its stored type. -/
theorem c9_drop_exactly_once_witness :
    (Error.dropEvents (Error.new sampleBt sampleRoot)).countP
        Event.isDropValue = 1 ∧
    (Error.downcastEvents (Error.new sampleBt sampleRoot) (.base 0) ++
        sampleRoot.dropValueEvents).countP Event.isDropValue = 1 ∧
    Error.downcastEvents (Error.new sampleBt sampleRoot) (.base 1) = [] := by
  refine ⟨(c9_drop_exactly_once (Error.new sampleBt sampleRoot) (.base 0)).1.1,
    ?_, ?_⟩
  · exact ((c9_drop_exactly_once (Error.new sampleBt sampleRoot)
      (.base 0)).2.1 rfl sampleRoot rfl).1
  · exact (c9_drop_exactly_once (Error.new sampleBt sampleRoot)
      (.base 1)).2.2 rfl

/-- C10: `new_adhoc(m)` stores the type token of the message type M
itself, not of the wrapper `MessageError<M>`, so `is::<M>()` holds and
`downcast_ref::<M>()` / `downcast::<M>()` succeed, yielding the stored
wrapper bits; reading those bits at type M (sound because `MessageError`
is `repr(transparent)` over M) recovers exactly the original message. -/
theorem c10_adhoc_type_identity (m : MessageVal) (backtrace : Option Backtrace) :
    (Error.new_adhoc m backtrace).inner.type_id = m.tyId ∧
    Error.is (Error.new_adhoc m backtrace) m.tyId = true ∧
    Error.downcast_ref (Error.new_adhoc m backtrace) m.tyId =
      some (MessageError m) ∧
    Error.downcast (Error.new_adhoc m backtrace) m.tyId =
      .ok (MessageError m) ∧
    (MessageError m).asMessage = m := by
  have his : Error.is (Error.new_adhoc m backtrace) m.tyId = true := by
    simp [Error.is, Error.new_adhoc, Error.construct]
  refine ⟨rfl, his, ?_, ?_, rfl⟩
  · unfold Error.downcast_ref
    rw [his]
    rfl
  · unfold Error.downcast Error.downcast_ref
    rw [his]
    rfl
